import Mathlib

/-!
Verification of the core of `sgcustoms_telebot`: the TTL cache (`cache.py`)
and the checkpoint-resolution pipeline (`lta_api.py`, `config.py`).

Modelling conventions:
* Python `dict` objects are modelled as association lists over `String` keys,
  with insertion-order-preserving assignment (`dictSet`), `dict.get`
  (`dictGet`) and `dict.pop(k, None)` (`dictPop`).
* Wall-clock instants (`datetime.now()`) are modelled as integers; each
  top-level API call is modelled as happening at a single instant `now`,
  passed explicitly.  `timedelta` comparison `now - stored < duration`
  becomes integer comparison.
* HTTP traffic is modelled by a `World` record: the metadata endpoint
  response and the per-URL image responses.  `Except.error` stands for a
  `requests.exceptions.RequestException` (transport error or the
  `raise_for_status` of a non-2xx response).
* `str.strftime` formatting is presentation-only (out of the spec's scope);
  it is modelled by an injective rendering `strftime_iso` of the instant.
-/

/-- Python `dict.get(k)`: first (hence only, for well-formed dicts) binding. -/
def dictGet {α : Type} (d : List (String × α)) (k : String) : Option α :=
  (d.find? (fun p => p.1 == k)).map (fun p => p.2)

/-- Python `d[k] = v`: overwrite in place if present, else append. -/
def dictSet {α : Type} (d : List (String × α)) (k : String) (v : α) :
    List (String × α) :=
  if d.any (fun p => p.1 == k) then
    d.map (fun p => if p.1 == k then (k, v) else p)
  else
    d ++ [(k, v)]

/-- Python `d.pop(k, None)`: remove the binding for `k` if present. -/
def dictPop {α : Type} (d : List (String × α)) (k : String) :
    List (String × α) :=
  d.filter (fun p => !(p.1 == k))

/-- `cache.py` line 7: `class APICache`, generic over the stored values
(Python stores `Any`).  `cache` and `last_updated` are the two dicts;
`cacheDuration` is `timedelta(seconds=cache_duration_seconds)`. -/
structure APICache (α : Type) where
  cache : List (String × α)
  last_updated : List (String × Int)
  cacheDuration : Int
deriving DecidableEq

/-- `APICache.__init__`: empty dicts, given duration. -/
def APICache.init (α : Type) (cache_duration_seconds : Int) : APICache α :=
  ⟨[], [], cache_duration_seconds⟩

/-- `cache.py` lines 30-34: `invalidate` pops the key from both dicts. -/
def APICache.invalidate {α : Type} (c : APICache α) (key : String) :
    APICache α :=
  { c with cache := dictPop c.cache key,
           last_updated := dictPop c.last_updated key }

/-- `cache.py` lines 13-22: `get` returns the value only if the key is in
both dicts and `now - last_updated[key] < cache_duration`; a read finding an
expired entry invalidates it (lazy eviction).  Returns the read result and
the (possibly evicted) cache state. -/
def APICache.get {α : Type} (c : APICache α) (now : Int) (key : String) :
    Option α × APICache α :=
  match dictGet c.cache key, dictGet c.last_updated key with
  | some v, some t =>
      if now - t < c.cacheDuration then (some v, c)
      else (none, c.invalidate key)
  | _, _ => (none, c)

/-- `cache.py` lines 24-28: `set` writes the value and stamps `now`. -/
def APICache.set {α : Type} (c : APICache α) (now : Int) (key : String)
    (value : α) : APICache α :=
  { c with cache := dictSet c.cache key value,
           last_updated := dictSet c.last_updated key now }

/-- `cache.py` lines 36-40: `clear` empties both dicts. -/
def APICache.clear {α : Type} (c : APICache α) : APICache α :=
  { c with cache := [], last_updated := [] }

/-- `cache.py` lines 42-44: `get_last_updated` is `last_updated.get(key)`,
with no expiry check and no mutation. -/
def APICache.get_last_updated {α : Type} (c : APICache α) (key : String) :
    Option Int :=
  dictGet c.last_updated key

/-- One JSON camera record from the upstream `value` array
(`{"CameraID": …, "ImageLink": …, "Timestamp": …}`); each field is
optional because the source reads them with `dict.get`. -/
structure ImageData where
  cameraID : Option String
  imageLink : Option String
  timestamp : Option String
deriving DecidableEq, Repr

/-- The values the program stores in the shared cache: `"all_images"` holds
the raw record list, `"checkpoint_images"` holds the filtered
name-to-record dict. -/
inductive CacheVal
  | images (l : List ImageData)
  | checkpoints (m : List (String × ImageData))
deriving DecidableEq

/-- The application's cache instance (`api_cache` in `cache.py` line 47). -/
abbrev AppCache := APICache CacheVal

/-- Image bodies (`response.content`). -/
abbrev Bytes := List Nat

/-- The outside world as seen by one batch of calls: the metadata endpoint's
response (error = transport failure or non-2xx; on success the optional
`value` field, `none` when the field is missing) and the image endpoint's
response per URL. -/
structure World where
  metaResp : Except String (Option (List ImageData))
  imgResp : String → Except String Bytes

/-- `requests.get(image_url)` where `image_url = image_data.get('ImageLink')`
may be `None`: `requests.get(None)` raises `MissingSchema`, a
`RequestException`, so it lands in the same `except` branch. -/
def requests_get_image (w : World) : Option String → Except String Bytes
  | none => .error ("Invalid URL \x27None\x27")
  | some url => w.imgResp url

/-- `config.py` lines 22-27: the static checkpoint registry, in source
order. -/
def CHECKPOINTS : List (String × String) :=
  [("Second Link at Tuas", "4703"),
   ("Tuas Checkpoint", "4713"),
   ("Woodlands Causeway (Towards Johor)", "2701"),
   ("Woodlands Checkpoint (Towards BKE)", "2702")]

/-- `checkpoint_name in config.CHECKPOINTS` (dict key membership). -/
def checkpointMember (name : String) : Bool :=
  CHECKPOINTS.any (fun p => p.1 == name)

/-- The miss path of `get_all_traffic_images` (`lta_api.py` lines 26-50):
one GET; a `RequestException` yields `[]` with nothing cached, success
parses `data.get('value', [])`, caches it under `"all_images"` and returns
it. -/
def fetchAllImages (w : World) (now : Int) (c : AppCache) :
    List ImageData × AppCache × Nat :=
  match w.metaResp with
  | .error _ => ([], c, 1)
  | .ok body =>
      let images := body.getD []
      (images, c.set now "all_images" (CacheVal.images images), 1)

/-- `lta_api.py` lines 13-50: `get_all_traffic_images`.  Cache hit on
`"all_images"` returns the cached list with no upstream call; a miss runs
`fetchAllImages`, which counts one upstream GET in the third component.
The `(some (.checkpoints _))` branch is unreachable: only
`api_cache.set("all_images", images)` at line 41 ever writes this key,
always with a record list; it is modelled like a miss. -/
def get_all_traffic_images (w : World) (now : Int) (c : AppCache) :
    List ImageData × AppCache × Nat :=
  match c.get now "all_images" with
  | (some (CacheVal.images l), c1) => (l, c1, 0)
  | (some (CacheVal.checkpoints _), c1) => fetchAllImages w now c1
  | (none, c1) => fetchAllImages w now c1

/-- `lta_api.py` lines 77-83: the filtering loop.  For each fetched record
in order, find the first configured checkpoint whose camera id equals the
record's `CameraID` (the inner loop `break`s at the first match) and assign
the record to that checkpoint's name, overwriting any earlier assignment. -/
def checkpointStep (acc : List (String × ImageData))
    (image_data : ImageData) : List (String × ImageData) :=
  match CHECKPOINTS.find? (fun cp => image_data.cameraID == some cp.2) with
  | some cp => dictSet acc cp.1 image_data
  | none => acc

/-- The loop of `lta_api.py` lines 77-83, folding `checkpointStep` over the
fetched records starting from the empty dict. -/
def filterCheckpoints (all_images : List ImageData) :
    List (String × ImageData) :=
  all_images.foldl checkpointStep []

/-- The miss path of `get_checkpoint_images` (`lta_api.py` lines 65-89):
fetch all records, filter them against the registry, cache the dict under
`"checkpoint_images"` and return it. -/
def buildCheckpointImages (w : World) (now : Int) (c : AppCache) :
    List (String × ImageData) × AppCache × Nat :=
  match get_all_traffic_images w now c with
  | (all_images, c2, n) =>
      let checkpoint_images := filterCheckpoints all_images
      (checkpoint_images,
       c2.set now "checkpoint_images" (CacheVal.checkpoints checkpoint_images),
       n)

/-- `lta_api.py` lines 52-89: `get_checkpoint_images`.  Cache hit on
`"checkpoint_images"` returns the cached dict; a miss runs
`buildCheckpointImages`.  The `(some (.images _))` branch is unreachable
(only line 86 writes this key, always with a filtered dict); modelled like
a miss. -/
def get_checkpoint_images (w : World) (now : Int) (c : AppCache) :
    List (String × ImageData) × AppCache × Nat :=
  match c.get now "checkpoint_images" with
  | (some (CacheVal.checkpoints m), c1) => (m, c1, 0)
  | (some (CacheVal.images _), c1) => buildCheckpointImages w now c1
  | (none, c1) => buildCheckpointImages w now c1

/-- Error string of `lta_api.py` line 105. -/
def unknownCheckpointMsg (name : String) : String :=
  "Checkpoint \x27" ++ name ++ "\x27 not found"

/-- Error string of `lta_api.py` line 113. -/
def noImageMsg (name : String) : String :=
  "No image found for checkpoint \x27" ++ name ++ "\x27"

/-- Error string of `lta_api.py` line 132, carrying the exception text. -/
def downloadFailedMsg (e : String) : String :=
  "Error fetching image: " ++ e

/-- Model of `cache_timestamp.strftime("%Y-%m-%dT%H:%M:%S+08:00")`
(`lta_api.py` line 121): an injective rendering of the instant.  The
concrete calendar formatting is presentation-only and out of the spec's
scope. -/
def strftime_iso (t : Int) : String :=
  toString t ++ "+08:00"

/-- `lta_api.py` lines 91-132: `get_checkpoint_image`.  Stage 1: unknown
name.  Stage 2: name absent from the checkpoint dict (`if not image_data`:
records placed in the dict always carry a `CameraID`, so a present record is
never a falsy empty dict and the test reduces to a `None` check).  Stage 3:
image download, with the effective timestamp taken from
`get_last_updated("all_images")` when present, else the record's
`Timestamp` field (default `'Unknown time'`).  Returns the source's
`(image_bytes_or_None, timestamp_or_error)` pair plus the resulting cache
state and the count of metadata-endpoint calls made. -/
def get_checkpoint_image (w : World) (now : Int) (c : AppCache)
    (checkpoint_name : String) :
    (Option Bytes × String) × AppCache × Nat :=
  if ¬ checkpointMember checkpoint_name then
    ((none, unknownCheckpointMsg checkpoint_name), c, 0)
  else
    match get_checkpoint_images w now c with
    | (checkpoint_images, c1, n) =>
      match dictGet checkpoint_images checkpoint_name with
      | none => ((none, noImageMsg checkpoint_name), c1, n)
      | some image_data =>
          let image_url := image_data.imageLink
          let api_timestamp := image_data.timestamp.getD "Unknown time"
          let timestamp :=
            match c1.get_last_updated "all_images" with
            | some t => strftime_iso t
            | none => api_timestamp
          match requests_get_image w image_url with
          | .ok content => ((some content, timestamp), c1, n)
          | .error e => ((none, downloadFailedMsg e), c1, n)

/-- `lta_api.py` lines 153-156: `force_refresh` clears the whole cache. -/
def force_refresh (c : AppCache) : AppCache :=
  c.clear

/-! ### Dictionary lemmas -/

theorem find?_map_overwrite {α : Type} (d : List (String × α)) (k : String)
    (v : α) :
    (d.map (fun p => if p.1 == k then (k, v) else p)).find?
        (fun p => p.1 == k)
      = if d.any (fun p => p.1 == k) then some (k, v) else none := by
  induction d with
  | nil => simp
  | cons p d ih =>
    by_cases hp : p.1 = k
    · have hmap : (if (p.1 == k) then ((k, v) : String × α) else p) = (k, v) := by
        simp [hp]
      rw [List.map_cons, hmap, List.find?_cons_of_pos _ (by simp)]
      simp [hp]
    · have hmap : (if (p.1 == k) then ((k, v) : String × α) else p) = p := by
        simp [hp]
      rw [List.map_cons, hmap, List.find?_cons_of_neg _ (by simp [hp]), ih]
      have hb : ((p.1 == k) : Bool) = false := by simp [hp]
      rw [List.any_cons, hb, Bool.false_or]

theorem find?_map_overwrite_ne {α : Type} (d : List (String × α))
    (k k2 : String) (v : α) (h : k2 ≠ k) :
    (d.map (fun p => if p.1 == k then (k, v) else p)).find?
        (fun p => p.1 == k2)
      = d.find? (fun p => p.1 == k2) := by
  induction d with
  | nil => rfl
  | cons p d ih =>
    by_cases hp : p.1 = k
    · have hmap : (if (p.1 == k) then ((k, v) : String × α) else p) = (k, v) := by
        simp [hp]
      rw [List.map_cons, hmap,
          List.find?_cons_of_neg _ (by simp [Ne.symm h]),
          List.find?_cons_of_neg _ (by simp [hp, Ne.symm h])]
      exact ih
    · have hmap : (if (p.1 == k) then ((k, v) : String × α) else p) = p := by
        simp [hp]
      rw [List.map_cons, hmap]
      by_cases hq : p.1 = k2
      · rw [List.find?_cons_of_pos _ (by simp [hq]),
            List.find?_cons_of_pos _ (by simp [hq])]
      · rw [List.find?_cons_of_neg _ (by simp [hq]),
            List.find?_cons_of_neg _ (by simp [hq])]
        exact ih

theorem dictGet_dictSet_self {α : Type} (d : List (String × α)) (k : String)
    (v : α) : dictGet (dictSet d k v) k = some v := by
  unfold dictGet dictSet
  split
  next h => rw [find?_map_overwrite, if_pos h]; rfl
  next h =>
    rw [List.find?_append]
    have hn : d.find? (fun p => p.1 == k) = none := by
      rw [List.find?_eq_none]
      intro p hp hpk
      exact h (List.any_eq_true.mpr ⟨p, hp, hpk⟩)
    simp [hn]

theorem dictGet_dictSet_ne {α : Type} (d : List (String × α))
    (k k2 : String) (v : α) (h : k2 ≠ k) :
    dictGet (dictSet d k v) k2 = dictGet d k2 := by
  unfold dictGet dictSet
  split
  · rw [find?_map_overwrite_ne _ _ _ _ h]
  · rw [List.find?_append]
    have hk2 : ((k == k2) : Bool) = false := by
      simp [Ne.symm h]
    simp [hk2]

theorem dictGet_dictPop_self {α : Type} (d : List (String × α))
    (k : String) : dictGet (dictPop d k) k = none := by
  unfold dictGet dictPop
  have hn : (d.filter (fun p => !(p.1 == k))).find? (fun p => p.1 == k)
      = none := by
    rw [List.find?_eq_none]
    intro p hp
    have := (List.mem_filter.mp hp).2
    simpa using this
  rw [hn]
  rfl

theorem dictPop_of_get_none {α : Type} (d : List (String × α)) (k : String)
    (h : dictGet d k = none) : dictPop d k = d := by
  unfold dictGet at h
  unfold dictPop
  rw [List.filter_eq_self]
  intro p hp
  cases hf : d.find? (fun p => p.1 == k) with
  | some q => rw [hf] at h; simp at h
  | none =>
    have := List.find?_eq_none.mp hf p hp
    simpa using this

/-! ### TTL cache claims -/

/-- C2: after `set(k, v)` at `t0`, `get(k)` returns `v` at any instant
strictly before `t0 + ttl` (with no intervening mutation) and returns
absent at any instant at or after `t0 + ttl`. -/
theorem ttl_get_after_set {α : Type} (c : APICache α) (k : String) (v : α)
    (t0 now : Int) :
    (now < t0 + c.cacheDuration → ((c.set t0 k v).get now k).1 = some v) ∧
    (t0 + c.cacheDuration ≤ now → ((c.set t0 k v).get now k).1 = none) := by
  have h1 : dictGet (c.set t0 k v).cache k = some v :=
    dictGet_dictSet_self _ _ _
  have h2 : dictGet (c.set t0 k v).last_updated k = some t0 :=
    dictGet_dictSet_self _ _ _
  have hd : (c.set t0 k v).cacheDuration = c.cacheDuration := rfl
  constructor
  · intro h
    simp only [APICache.get, h1, h2, hd]
    rw [if_pos (by omega)]
  · intro h
    simp only [APICache.get, h1, h2, hd]
    rw [if_neg (by omega)]

theorem ttl_get_after_set_witness :
    ((((APICache.init Nat 60).set 0 "k" 5).get 59 "k").1 = some 5) ∧
    ((((APICache.init Nat 60).set 0 "k" 5).get 60 "k").1 = none) :=
  ⟨(ttl_get_after_set (APICache.init Nat 60) "k" 5 0 59).1 (by decide),
   (ttl_get_after_set (APICache.init Nat 60) "k" 5 0 60).2 (by decide)⟩

/-- C7: `get(k)` right after `invalidate(k)` is absent regardless of TTL
state; `invalidate` on an absent key is a no-op; after `clear()`, `get` is
absent for every key. -/
theorem invalidate_and_clear_absent {α : Type} (c : APICache α)
    (k : String) (now : Int) :
    (((c.invalidate k).get now k).1 = none) ∧
    (dictGet c.cache k = none → dictGet c.last_updated k = none →
      c.invalidate k = c) ∧
    (∀ k2, ((c.clear).get now k2).1 = none) := by
  refine ⟨?_, ?_, ?_⟩
  · have h1 : dictGet (c.invalidate k).cache k = none :=
      dictGet_dictPop_self _ _
    simp only [APICache.get, h1]
  · intro h1 h2
    obtain ⟨a, b, dur⟩ := c
    simp only [APICache.invalidate]
    rw [dictPop_of_get_none _ _ h1, dictPop_of_get_none _ _ h2]
  · intro k2
    rfl

theorem invalidate_and_clear_absent_witness :
    (((((APICache.init Nat 60).set 0 "k" 5).invalidate "k").get 10 "k").1
        = none) ∧
    ((APICache.init Nat 60).invalidate "q" = APICache.init Nat 60) ∧
    (((((APICache.init Nat 60).set 0 "k" 5).clear).get 10 "k").1 = none) :=
  ⟨(invalidate_and_clear_absent ((APICache.init Nat 60).set 0 "k" 5)
      "k" 10).1,
   (invalidate_and_clear_absent (APICache.init Nat 60) "q" 0).2.1
      (by decide) (by decide),
   (invalidate_and_clear_absent ((APICache.init Nat 60).set 0 "k" 5)
      "k" 10).2.2 "k"⟩

/-- C8 as stated is false: `get_last_updated` performs no expiry check
(`cache.py` line 44).  At `ttl = 60`, an entry set at `0` and read at `60`
is absent to `get` but `get_last_updated` still returns the stored
timestamp. -/
theorem expired_last_updated_visible_cex :
    ((((APICache.init Nat 60).set 0 "k" 5).get 60 "k").1 = none) ∧
    (((APICache.init Nat 60).set 0 "k" 5).get_last_updated "k" = some 0) := by
  decide

/-- C8 amended: an expired entry is absent to `get` (and the expired read
lazily evicts it, after which `get_last_updated` is also absent), but
until that physical removal `get_last_updated` still reports the stored
timestamp. -/
theorem expired_entry_absent_to_get {α : Type} (c : APICache α)
    (k : String) (v : α) (t now : Int)
    (hc : dictGet c.cache k = some v)
    (ht : dictGet c.last_updated k = some t)
    (h : c.cacheDuration ≤ now - t) :
    ((c.get now k).1 = none) ∧
    (c.get_last_updated k = some t) ∧
    (((c.get now k).2).get_last_updated k = none) := by
  have hg : c.get now k = (none, c.invalidate k) := by
    simp only [APICache.get, hc, ht]
    rw [if_neg (by omega)]
  refine ⟨by rw [hg], ht, ?_⟩
  rw [hg]
  exact dictGet_dictPop_self _ _

theorem expired_entry_absent_to_get_witness :
    ((((APICache.init Nat 60).set 0 "k" 5).get 61 "k").1 = none) ∧
    (((APICache.init Nat 60).set 0 "k" 5).get_last_updated "k" = some 0) ∧
    (((((APICache.init Nat 60).set 0 "k" 5).get 61 "k").2).get_last_updated
        "k" = none) :=
  expired_entry_absent_to_get ((APICache.init Nat 60).set 0 "k" 5)
    "k" 5 0 61 (by decide) (by decide) (by decide)

/-- C9: within the TTL window, a `get` returns the stored value and leaves
the cache state (in particular the stored timestamp) unchanged, so
repeated reads return the identical value with unchanged expiry. -/
theorem get_read_idempotent {α : Type} (c : APICache α) (k : String)
    (v : α) (t0 now : Int) (h : now < t0 + c.cacheDuration) :
    ((c.set t0 k v).get now k = (some v, c.set t0 k v)) ∧
    ((((c.set t0 k v).get now k).2).get now k = (some v, c.set t0 k v)) ∧
    ((((c.set t0 k v).get now k).2).get_last_updated k = some t0) := by
  have h1 : dictGet (c.set t0 k v).cache k = some v :=
    dictGet_dictSet_self _ _ _
  have h2 : dictGet (c.set t0 k v).last_updated k = some t0 :=
    dictGet_dictSet_self _ _ _
  have hd : (c.set t0 k v).cacheDuration = c.cacheDuration := rfl
  have hg : (c.set t0 k v).get now k = (some v, c.set t0 k v) := by
    simp only [APICache.get, h1, h2, hd]
    rw [if_pos (by omega)]
  exact ⟨hg, by rw [hg]; exact hg, by rw [hg]; exact h2⟩

theorem get_read_idempotent_witness :
    (((APICache.init Nat 60).set 0 "k" 5).get 30 "k"
        = (some 5, (APICache.init Nat 60).set 0 "k" 5)) ∧
    (((((APICache.init Nat 60).set 0 "k" 5).get 30 "k").2).get 30 "k"
        = (some 5, (APICache.init Nat 60).set 0 "k" 5)) ∧
    (((((APICache.init Nat 60).set 0 "k" 5).get 30 "k").2).get_last_updated
        "k" = some 0) :=
  get_read_idempotent (APICache.init Nat 60) "k" 5 0 30 (by decide)

/-! ### Filtering-loop lemmas -/

theorem checkpointStep_get (name id : String)
    (h : (name, id) ∈ CHECKPOINTS)
    (acc : List (String × ImageData)) (d : ImageData) :
    dictGet (checkpointStep acc d) name
      = if d.cameraID == some id then some d else dictGet acc name := by
  simp only [CHECKPOINTS, List.mem_cons, List.not_mem_nil, or_false,
    Prod.mk.injEq] at h
  obtain ⟨rfl, rfl⟩ | ⟨rfl, rfl⟩ | ⟨rfl, rfl⟩ | ⟨rfl, rfl⟩ := h <;>
  · cases ho : d.cameraID with
    | none => simp [checkpointStep, CHECKPOINTS, List.find?, ho]
    | some s =>
      by_cases h1 : s = "4703" <;> by_cases h2 : s = "4713" <;>
        by_cases h3 : s = "2701" <;> by_cases h4 : s = "2702" <;>
        simp_all [checkpointStep, CHECKPOINTS, List.find?,
          dictGet_dictSet_self, dictGet_dictSet_ne] <;>
        rw [show (s == "4703") = false by simp [h1],
            show (s == "4713") = false by simp [h2],
            show (s == "2701") = false by simp [h3],
            show (s == "2702") = false by simp [h4]]

theorem foldl_checkpointStep_get (name id : String)
    (h : (name, id) ∈ CHECKPOINTS) :
    ∀ (l : List ImageData) (acc : List (String × ImageData)),
      dictGet (l.foldl checkpointStep acc) name
        = ((l.filter (fun d => d.cameraID == some id)).getLast?).or
            (dictGet acc name) := by
  intro l
  induction l with
  | nil => intro acc; simp
  | cons d l ih =>
    intro acc
    rw [List.foldl_cons, ih, checkpointStep_get name id h acc d]
    by_cases hd : (d.cameraID == some id) = true
    · rw [if_pos hd, List.filter_cons, if_pos hd]
      cases hl : l.filter (fun d => d.cameraID == some id) with
      | nil => rfl
      | cons a as =>
        rw [List.getLast?_cons_cons]
        obtain ⟨x, hx⟩ := Option.isSome_iff_exists.mp
          (List.getLast?_isSome.mpr (by simp : (a :: as) ≠ []))
        rw [hx]
        rfl
    · rw [if_neg hd, List.filter_cons, if_neg hd]

/-! ### Traffic data client claims -/

theorem get_snd_cacheDuration {α : Type} (c : APICache α) (now : Int)
    (k : String) : ((c.get now k).2).cacheDuration = c.cacheDuration := by
  unfold APICache.get
  split
  · split
    · rfl
    · rfl
  · rfl

/-- C5: on a miss of `"all_images"`, `get_all_traffic_images` performs
exactly one upstream GET; a transport error or non-2xx response yields the
empty sequence (and the cache is left as the miss left it); a successful
response yields exactly the parsed `value` list (`[]` when the field is
missing), which is stored in the cache under `"all_images"` in the
returned state. -/
theorem fetch_all_on_miss (w : World) (now : Int) (c c1 : AppCache)
    (hmiss : c.get now "all_images" = (none, c1)) :
    ((get_all_traffic_images w now c).2.2 = 1) ∧
    (∀ e, w.metaResp = .error e →
      get_all_traffic_images w now c = ([], c1, 1)) ∧
    (∀ body, w.metaResp = .ok body →
      get_all_traffic_images w now c
        = (body.getD [],
           c1.set now "all_images" (CacheVal.images (body.getD [])), 1) ∧
      dictGet (c1.set now "all_images"
          (CacheVal.images (body.getD []))).cache "all_images"
        = some (CacheVal.images (body.getD []))) := by
  have hg : get_all_traffic_images w now c = fetchAllImages w now c1 := by
    simp only [get_all_traffic_images, hmiss]
  refine ⟨?_, ?_, ?_⟩
  · rw [hg]
    unfold fetchAllImages
    cases w.metaResp <;> rfl
  · intro e he
    rw [hg]
    simp only [fetchAllImages, he]
  · intro body hb
    rw [hg]
    exact ⟨by simp only [fetchAllImages, hb], dictGet_dictSet_self _ _ _⟩

theorem fetch_all_on_miss_witness :
    ((get_all_traffic_images ⟨.error "down", fun _ => .error "x"⟩ 0
        (APICache.init CacheVal 60)).2.2 = 1) ∧
    (get_all_traffic_images ⟨.error "down", fun _ => .error "x"⟩ 0
        (APICache.init CacheVal 60)
      = ([], APICache.init CacheVal 60, 1)) ∧
    (get_all_traffic_images
        ⟨.ok (some [⟨some "4703", some "u", some "ts"⟩]),
         fun _ => .error "x"⟩ 0 (APICache.init CacheVal 60)
      = ([⟨some "4703", some "u", some "ts"⟩],
         (APICache.init CacheVal 60).set 0 "all_images"
           (CacheVal.images [⟨some "4703", some "u", some "ts"⟩]), 1)) :=
  ⟨(fetch_all_on_miss ⟨.error "down", fun _ => .error "x"⟩ 0
      (APICache.init CacheVal 60) (APICache.init CacheVal 60) rfl).1,
   (fetch_all_on_miss ⟨.error "down", fun _ => .error "x"⟩ 0
      (APICache.init CacheVal 60) (APICache.init CacheVal 60) rfl).2.1
      "down" rfl,
   ((fetch_all_on_miss
      ⟨.ok (some [⟨some "4703", some "u", some "ts"⟩]),
       fun _ => .error "x"⟩ 0
      (APICache.init CacheVal 60) (APICache.init CacheVal 60) rfl).2.2
      (some [⟨some "4703", some "u", some "ts"⟩]) rfl).1⟩

/-- C6: starting from a miss, a successful fetch followed by a second call
within the TTL window issues exactly one upstream request in total (the
second call is a cache hit returning the same sequence with zero upstream
calls); interposing `force_refresh` clears the cache, so the second call
issues an upstream request again. -/
theorem cache_sharing_single_upstream (w1 w2 w3 : World) (now1 now2 : Int)
    (c c1 : AppCache) (body : Option (List ImageData))
    (hmiss : c.get now1 "all_images" = (none, c1))
    (hok : w1.metaResp = .ok body)
    (hwin : now1 ≤ now2) (hwin2 : now2 < now1 + c.cacheDuration) :
    (get_all_traffic_images w1 now1 c
      = (body.getD [],
         c1.set now1 "all_images" (CacheVal.images (body.getD [])), 1)) ∧
    (get_all_traffic_images w2 now2
        (c1.set now1 "all_images" (CacheVal.images (body.getD [])))
      = (body.getD [],
         c1.set now1 "all_images" (CacheVal.images (body.getD [])), 0)) ∧
    ((get_all_traffic_images w3 now2
        (force_refresh
          (c1.set now1 "all_images" (CacheVal.images (body.getD []))))).2.2
      = 1) := by
  have hdur : c1.cacheDuration = c.cacheDuration := by
    have := get_snd_cacheDuration c now1 "all_images"
    rw [hmiss] at this
    exact this
  refine ⟨?_, ?_, ?_⟩
  · simp only [get_all_traffic_images, hmiss, fetchAllImages, hok]
  · have h1 : dictGet (c1.set now1 "all_images"
        (CacheVal.images (body.getD []))).cache "all_images"
        = some (CacheVal.images (body.getD [])) := dictGet_dictSet_self _ _ _
    have h2 : dictGet (c1.set now1 "all_images"
        (CacheVal.images (body.getD []))).last_updated "all_images"
        = some now1 := dictGet_dictSet_self _ _ _
    have hget : (c1.set now1 "all_images"
        (CacheVal.images (body.getD []))).get now2 "all_images"
        = (some (CacheVal.images (body.getD [])),
           c1.set now1 "all_images" (CacheVal.images (body.getD []))) := by
      simp only [APICache.get, h1, h2]
      rw [if_pos]
      show now2 - now1 < c1.cacheDuration
      omega
    simp only [get_all_traffic_images, hget]
  · have hclear : (force_refresh
        (c1.set now1 "all_images" (CacheVal.images (body.getD [])))).get
          now2 "all_images"
        = (none, force_refresh
            (c1.set now1 "all_images" (CacheVal.images (body.getD [])))) :=
      rfl
    simp only [get_all_traffic_images, hclear]
    unfold fetchAllImages
    cases w3.metaResp <;> rfl

theorem cache_sharing_single_upstream_witness :
    (get_all_traffic_images
        ⟨.ok (some [⟨some "2701", some "u", none⟩]), fun _ => .error "x"⟩
        0 (APICache.init CacheVal 60)
      = ([⟨some "2701", some "u", none⟩],
         (APICache.init CacheVal 60).set 0 "all_images"
           (CacheVal.images [⟨some "2701", some "u", none⟩]), 1)) ∧
    (get_all_traffic_images ⟨.error "down", fun _ => .error "x"⟩ 30
        ((APICache.init CacheVal 60).set 0 "all_images"
          (CacheVal.images [⟨some "2701", some "u", none⟩]))
      = ([⟨some "2701", some "u", none⟩],
         (APICache.init CacheVal 60).set 0 "all_images"
           (CacheVal.images [⟨some "2701", some "u", none⟩]), 0)) ∧
    ((get_all_traffic_images ⟨.error "down", fun _ => .error "x"⟩ 30
        (force_refresh
          ((APICache.init CacheVal 60).set 0 "all_images"
            (CacheVal.images [⟨some "2701", some "u", none⟩])))).2.2 = 1) :=
  cache_sharing_single_upstream
    ⟨.ok (some [⟨some "2701", some "u", none⟩]), fun _ => .error "x"⟩
    ⟨.error "down", fun _ => .error "x"⟩
    ⟨.error "down", fun _ => .error "x"⟩
    0 30 (APICache.init CacheVal 60) (APICache.init CacheVal 60)
    (some [⟨some "2701", some "u", none⟩]) rfl rfl (by decide) (by decide)

/-- C4 as stated is false on duplicate camera ids: the source iterates
records in the outer loop and overwrites the dict entry on every match
(`lta_api.py` line 82), so the LAST matching record wins, not the first.
With two fetched records both carrying `CameraID "4703"`, the first
matching record is the `u1` record, yet the mapping holds the `u2`
record. -/
theorem checkpoint_map_first_match_cex :
    (([⟨some "4703", some "u1", none⟩,
       ⟨some "4703", some "u2", none⟩] : List ImageData).find?
        (fun d => d.cameraID == some "4703")
      = some ⟨some "4703", some "u1", none⟩) ∧
    (dictGet (get_checkpoint_images
        ⟨.ok (some [⟨some "4703", some "u1", none⟩,
                    ⟨some "4703", some "u2", none⟩]),
         fun _ => .error "x"⟩ 0 (APICache.init CacheVal 60)).1
        "Second Link at Tuas"
      = some ⟨some "4703", some "u2", none⟩) ∧
    ((⟨some "4703", some "u2", none⟩ : ImageData)
      ≠ ⟨some "4703", some "u1", none⟩) := by
  decide

/-- C4 amended: on a miss of `"checkpoint_images"`, the mapping built by
`get_checkpoint_images` holds, for each registered checkpoint, the LAST
fetched record whose camera id matches the checkpoint's configured id
(absent when no record matches — not an error), and the mapping is stored
in the cache under `"checkpoint_images"`. -/
theorem checkpoint_map_last_match (w : World) (now : Int) (c c1 : AppCache)
    (hmiss : c.get now "checkpoint_images" = (none, c1))
    (name id : String) (h : (name, id) ∈ CHECKPOINTS) :
    (dictGet (get_checkpoint_images w now c).1 name
      = ((get_all_traffic_images w now c1).1.filter
          (fun d => d.cameraID == some id)).getLast?) ∧
    (dictGet ((get_checkpoint_images w now c).2.1).cache "checkpoint_images"
      = some (CacheVal.checkpoints (get_checkpoint_images w now c).1)) := by
  have hg : get_checkpoint_images w now c = buildCheckpointImages w now c1 := by
    simp only [get_checkpoint_images, hmiss]
  rcases hga : get_all_traffic_images w now c1 with ⟨all, c2, n⟩
  have hb : buildCheckpointImages w now c1
      = (filterCheckpoints all,
         c2.set now "checkpoint_images"
           (CacheVal.checkpoints (filterCheckpoints all)), n) := by
    simp only [buildCheckpointImages, hga]
  rw [hg, hb]
  constructor
  · show dictGet (filterCheckpoints all) name
      = (all.filter (fun d => d.cameraID == some id)).getLast?
    rw [filterCheckpoints, foldl_checkpointStep_get name id h all [],
        show dictGet ([] : List (String × ImageData)) name = none from rfl,
        Option.or_none]
  · exact dictGet_dictSet_self _ _ _

theorem checkpoint_map_last_match_witness :
    (dictGet (get_checkpoint_images
        ⟨.ok (some [⟨some "4703", some "u1", none⟩,
                    ⟨some "4703", some "u2", none⟩]),
         fun _ => .error "x"⟩ 0 (APICache.init CacheVal 60)).1
        "Second Link at Tuas"
      = (((get_all_traffic_images
          ⟨.ok (some [⟨some "4703", some "u1", none⟩,
                      ⟨some "4703", some "u2", none⟩]),
           fun _ => .error "x"⟩ 0 (APICache.init CacheVal 60)).1.filter
          (fun d => d.cameraID == some "4703")).getLast?)) ∧
    (dictGet ((get_checkpoint_images
        ⟨.ok (some [⟨some "4703", some "u1", none⟩,
                    ⟨some "4703", some "u2", none⟩]),
         fun _ => .error "x"⟩ 0 (APICache.init CacheVal 60)).2.1).cache
        "checkpoint_images"
      = some (CacheVal.checkpoints (get_checkpoint_images
          ⟨.ok (some [⟨some "4703", some "u1", none⟩,
                      ⟨some "4703", some "u2", none⟩]),
           fun _ => .error "x"⟩ 0 (APICache.init CacheVal 60)).1)) :=
  checkpoint_map_last_match
    ⟨.ok (some [⟨some "4703", some "u1", none⟩,
                ⟨some "4703", some "u2", none⟩]),
     fun _ => .error "x"⟩ 0
    (APICache.init CacheVal 60) (APICache.init CacheVal 60) rfl
    "Second Link at Tuas" "4703" (by decide)

/-- C10: when the upstream metadata fetch fails, the miss path of
`get_checkpoint_images` still caches the resulting empty mapping under
`"checkpoint_images"`; for the rest of the TTL window every call returns
the empty mapping from cache with zero upstream requests, and resolving
any registered checkpoint yields the no-image error even against a
recovered upstream (`w2` is arbitrary). -/
theorem degraded_empty_map_sticky (w1 w2 : World) (now1 now2 : Int)
    (c c1 c2 : AppCache) (e : String)
    (hmiss1 : c.get now1 "checkpoint_images" = (none, c1))
    (hmiss2 : c1.get now1 "all_images" = (none, c2))
    (herr : w1.metaResp = .error e)
    (hseq : now1 ≤ now2) (hwin : now2 < now1 + c2.cacheDuration) :
    (get_checkpoint_images w1 now1 c
      = ([], c2.set now1 "checkpoint_images" (CacheVal.checkpoints []), 1)) ∧
    (get_checkpoint_images w2 now2
        (c2.set now1 "checkpoint_images" (CacheVal.checkpoints []))
      = ([], c2.set now1 "checkpoint_images" (CacheVal.checkpoints []), 0)) ∧
    (∀ name id, (name, id) ∈ CHECKPOINTS →
      (get_checkpoint_image w2 now2
          (c2.set now1 "checkpoint_images" (CacheVal.checkpoints [])) name).1
        = (none, noImageMsg name) ∧
      (get_checkpoint_image w2 now2
          (c2.set now1 "checkpoint_images" (CacheVal.checkpoints [])) name).2.2
        = 0) := by
  have h1 : dictGet (c2.set now1 "checkpoint_images"
      (CacheVal.checkpoints [])).cache "checkpoint_images"
      = some (CacheVal.checkpoints []) := dictGet_dictSet_self _ _ _
  have h2 : dictGet (c2.set now1 "checkpoint_images"
      (CacheVal.checkpoints [])).last_updated "checkpoint_images"
      = some now1 := dictGet_dictSet_self _ _ _
  have hget : (c2.set now1 "checkpoint_images"
      (CacheVal.checkpoints [])).get now2 "checkpoint_images"
      = (some (CacheVal.checkpoints []),
         c2.set now1 "checkpoint_images" (CacheVal.checkpoints [])) := by
    simp only [APICache.get, h1, h2]
    rw [if_pos]
    show now2 - now1 < c2.cacheDuration
    omega
  have hgc2 : get_checkpoint_images w2 now2
      (c2.set now1 "checkpoint_images" (CacheVal.checkpoints []))
      = ([], c2.set now1 "checkpoint_images" (CacheVal.checkpoints []), 0) := by
    simp only [get_checkpoint_images, hget]
  refine ⟨?_, hgc2, ?_⟩
  · simp only [get_checkpoint_images, hmiss1, buildCheckpointImages,
      get_all_traffic_images, hmiss2, fetchAllImages, herr,
      filterCheckpoints, List.foldl_nil]
  · intro name id hmem
    have hmemb : checkpointMember name = true :=
      List.any_eq_true.mpr ⟨(name, id), hmem, by simp⟩
    constructor <;>
    · simp only [get_checkpoint_image, hmemb, not_true_eq_false,
        if_false, hgc2]
      rfl

theorem degraded_empty_map_sticky_witness :
    (get_checkpoint_images ⟨.error "down", fun _ => .error "x"⟩ 0
        (APICache.init CacheVal 60)
      = ([], (APICache.init CacheVal 60).set 0 "checkpoint_images"
          (CacheVal.checkpoints []), 1)) ∧
    (get_checkpoint_images
        ⟨.ok (some [⟨some "4713", some "u", none⟩]), fun _ => .ok [255]⟩ 30
        ((APICache.init CacheVal 60).set 0 "checkpoint_images"
          (CacheVal.checkpoints []))
      = ([], (APICache.init CacheVal 60).set 0 "checkpoint_images"
          (CacheVal.checkpoints []), 0)) ∧
    ((get_checkpoint_image
        ⟨.ok (some [⟨some "4713", some "u", none⟩]), fun _ => .ok [255]⟩ 30
        ((APICache.init CacheVal 60).set 0 "checkpoint_images"
          (CacheVal.checkpoints [])) "Tuas Checkpoint").1
      = (none, noImageMsg "Tuas Checkpoint")) ∧
    ((get_checkpoint_image
        ⟨.ok (some [⟨some "4713", some "u", none⟩]), fun _ => .ok [255]⟩ 30
        ((APICache.init CacheVal 60).set 0 "checkpoint_images"
          (CacheVal.checkpoints [])) "Tuas Checkpoint").2.2 = 0) := by
  have h := degraded_empty_map_sticky
    ⟨.error "down", fun _ => .error "x"⟩
    ⟨.ok (some [⟨some "4713", some "u", none⟩]), fun _ => .ok [255]⟩
    0 30 (APICache.init CacheVal 60) (APICache.init CacheVal 60)
    (APICache.init CacheVal 60) "down" rfl rfl rfl (by decide) (by decide)
  exact ⟨h.1, h.2.1, (h.2.2 "Tuas Checkpoint" "4713" (by decide)).1,
         (h.2.2 "Tuas Checkpoint" "4713" (by decide)).2⟩

/-! ### Resolver claims -/

/-- C3: for a matched checkpoint whose image download succeeds, the
timestamp attached to the result is the rendering of the cache's
`last_updated("all_images")` whenever that is present, and the record's
own `Timestamp` field (default `'Unknown time'`) only when the cache
timestamp is absent. -/
theorem effective_timestamp_prefers_cache (w : World) (now : Int)
    (c : AppCache) (name : String) (d : ImageData) (b : Bytes)
    (hmem : checkpointMember name = true)
    (hrec : dictGet (get_checkpoint_images w now c).1 name = some d)
    (hok : requests_get_image w d.imageLink = .ok b) :
    (∀ t, ((get_checkpoint_images w now c).2.1).get_last_updated
        "all_images" = some t →
      (get_checkpoint_image w now c name).1 = (some b, strftime_iso t)) ∧
    (((get_checkpoint_images w now c).2.1).get_last_updated "all_images"
        = none →
      (get_checkpoint_image w now c name).1
        = (some b, d.timestamp.getD "Unknown time")) := by
  rcases hgc : get_checkpoint_images w now c with ⟨m, c1, n⟩
  rw [hgc] at hrec
  have hbase : get_checkpoint_image w now c name
      = match c1.get_last_updated "all_images" with
        | some t => ((some b, strftime_iso t), c1, n)
        | none => ((some b, d.timestamp.getD "Unknown time"), c1, n) := by
    simp only [get_checkpoint_image, hmem, not_true_eq_false, if_false,
      hgc, hrec, hok]
    cases c1.get_last_updated "all_images" <;> rfl
  constructor
  · intro t ht
    simp only [hgc] at ht
    rw [hbase]
    simp only [ht]
  · intro ht
    simp only [hgc] at ht
    rw [hbase]
    simp only [ht]

theorem effective_timestamp_prefers_cache_witness :
    ((get_checkpoint_image
        ⟨.ok (some [⟨some "4703", some "u", some "ts"⟩]),
         fun _ => .ok [255, 216]⟩ 0 (APICache.init CacheVal 60)
        "Second Link at Tuas").1
      = (some [255, 216], strftime_iso 0)) ∧
    ((get_checkpoint_image
        ⟨.error "down", fun _ => .ok [255, 216]⟩ 30
        ((APICache.init CacheVal 60).set 0 "checkpoint_images"
          (CacheVal.checkpoints
            [("Second Link at Tuas", ⟨some "4703", some "u", some "ts"⟩)]))
        "Second Link at Tuas").1
      = (some [255, 216], "ts")) :=
  ⟨(effective_timestamp_prefers_cache
      ⟨.ok (some [⟨some "4703", some "u", some "ts"⟩]),
       fun _ => .ok [255, 216]⟩ 0 (APICache.init CacheVal 60)
      "Second Link at Tuas" ⟨some "4703", some "u", some "ts"⟩ [255, 216]
      (by decide) (by decide) rfl).1 0 (by decide),
   (effective_timestamp_prefers_cache
      ⟨.error "down", fun _ => .ok [255, 216]⟩ 30
      ((APICache.init CacheVal 60).set 0 "checkpoint_images"
        (CacheVal.checkpoints
          [("Second Link at Tuas", ⟨some "4703", some "u", some "ts"⟩)]))
      "Second Link at Tuas" ⟨some "4703", some "u", some "ts"⟩ [255, 216]
      (by decide) (by decide) rfl).2 (by decide)⟩

/-- The three failure strings of `get_checkpoint_image` are pairwise
distinct for all checkpoint names and causes (they begin with distinct
fixed prefixes). -/
theorem error_msgs_pairwise_distinct (n1 n2 e : String) :
    (unknownCheckpointMsg n1 ≠ noImageMsg n2) ∧
    (unknownCheckpointMsg n1 ≠ downloadFailedMsg e) ∧
    (noImageMsg n2 ≠ downloadFailedMsg e) := by
  refine ⟨fun h => ?_, fun h => ?_, fun h => ?_⟩
  · have hC : (unknownCheckpointMsg n1).data.head? = some (Char.ofNat 67) :=
      rfl
    have hN : (noImageMsg n2).data.head? = some (Char.ofNat 78) := rfl
    have h2 : (unknownCheckpointMsg n1).data.head?
        = (noImageMsg n2).data.head? := by rw [h]
    rw [hC, hN] at h2
    exact absurd h2 (by decide)
  · have hC : (unknownCheckpointMsg n1).data.head? = some (Char.ofNat 67) :=
      rfl
    have hE : (downloadFailedMsg e).data.head? = some (Char.ofNat 69) := rfl
    have h2 : (unknownCheckpointMsg n1).data.head?
        = (downloadFailedMsg e).data.head? := by rw [h]
    rw [hC, hE] at h2
    exact absurd h2 (by decide)
  · have hN : (noImageMsg n2).data.head? = some (Char.ofNat 78) := rfl
    have hE : (downloadFailedMsg e).data.head? = some (Char.ofNat 69) := rfl
    have h2 : (noImageMsg n2).data.head?
        = (downloadFailedMsg e).data.head? := by rw [h]
    rw [hN, hE] at h2
    exact absurd h2 (by decide)

/-- C1: the resolver's three stages discriminate failures — an
unregistered name yields the not-found error, a registered name absent
from the checkpoint mapping yields the no-image error, a matched record
whose download fails yields the download error carrying the underlying
cause — and the three error strings are pairwise distinct.  The model is a
total function, so no stage escapes with an exception. -/
theorem resolver_error_discrimination (w : World) (now : Int)
    (c : AppCache) :
    (∀ name, checkpointMember name = false →
      (get_checkpoint_image w now c name).1
        = (none, unknownCheckpointMsg name)) ∧
    (∀ name, checkpointMember name = true →
      dictGet (get_checkpoint_images w now c).1 name = none →
      (get_checkpoint_image w now c name).1 = (none, noImageMsg name)) ∧
    (∀ name d e, checkpointMember name = true →
      dictGet (get_checkpoint_images w now c).1 name = some d →
      requests_get_image w d.imageLink = .error e →
      (get_checkpoint_image w now c name).1
        = (none, downloadFailedMsg e)) ∧
    (∀ n1 n2 e2, (unknownCheckpointMsg n1 ≠ noImageMsg n2) ∧
      (unknownCheckpointMsg n1 ≠ downloadFailedMsg e2) ∧
      (noImageMsg n2 ≠ downloadFailedMsg e2)) := by
  refine ⟨?_, ?_, ?_, fun n1 n2 e2 => error_msgs_pairwise_distinct n1 n2 e2⟩
  · intro name hmem
    simp only [get_checkpoint_image, hmem]
    rw [if_pos (by simp [hmem])]
  · intro name hmem hnone
    rcases hgc : get_checkpoint_images w now c with ⟨m, c1, n⟩
    rw [hgc] at hnone
    simp only [get_checkpoint_image, hmem, not_true_eq_false, if_false,
      hgc, hnone]
  · intro name d e hmem hrec herr
    rcases hgc : get_checkpoint_images w now c with ⟨m, c1, n⟩
    rw [hgc] at hrec
    simp only [get_checkpoint_image, hmem, not_true_eq_false, if_false,
      hgc, hrec, herr]

theorem resolver_error_discrimination_witness :
    ((get_checkpoint_image
        ⟨.ok (some [⟨some "4703", some "u", some "ts"⟩]),
         fun _ => .error "boom"⟩ 0 (APICache.init CacheVal 60) "Nope").1
      = (none, unknownCheckpointMsg "Nope")) ∧
    ((get_checkpoint_image
        ⟨.ok (some [⟨some "4703", some "u", some "ts"⟩]),
         fun _ => .error "boom"⟩ 0 (APICache.init CacheVal 60)
        "Tuas Checkpoint").1
      = (none, noImageMsg "Tuas Checkpoint")) ∧
    ((get_checkpoint_image
        ⟨.ok (some [⟨some "4703", some "u", some "ts"⟩]),
         fun _ => .error "boom"⟩ 0 (APICache.init CacheVal 60)
        "Second Link at Tuas").1
      = (none, downloadFailedMsg "boom")) ∧
    (unknownCheckpointMsg "Nope" ≠ noImageMsg "Tuas Checkpoint") ∧
    (unknownCheckpointMsg "Nope" ≠ downloadFailedMsg "boom") ∧
    (noImageMsg "Tuas Checkpoint" ≠ downloadFailedMsg "boom") := by
  have h := resolver_error_discrimination
    ⟨.ok (some [⟨some "4703", some "u", some "ts"⟩]),
     fun _ => .error "boom"⟩ 0 (APICache.init CacheVal 60)
  have hd := h.2.2.2 "Nope" "Tuas Checkpoint" "boom"
  exact ⟨h.1 "Nope" (by decide),
         h.2.1 "Tuas Checkpoint" (by decide) (by decide),
         h.2.2.1 "Second Link at Tuas" ⟨some "4703", some "u", some "ts"⟩
           "boom" (by decide) (by decide) rfl,
         hd.1, hd.2.1, hd.2.2⟩
